import Mathlib

/-!
# Verification of the medical-assistant extraction/synthesis pipeline

Shallow embedding of `src/ai_pipeline.py`.  Filesystem reads, the pandas
CSV parser, pdfplumber page/grid extraction and the two remote-model calls
are external effects; each is modelled as an explicit input (an oracle
value) of the embedded function: `Except String α` models a Python call
that either returns a value or raises an exception with a message,
`Option` models a nullable result.  Every embedded function is total,
mirroring the source's catch-all exception handlers; the textual rendering
of library conveniences (`pandas.to_string`, float formatting) is modelled
by simple deterministic printers whose exact text no claim inspects.
-/

/-! ## Data model

A pandas DataFrame cell is either a string or missing (NaN); `pandas`
`dropna` removes only missing values, which is the distinction the table
cleaning code depends on. -/

inductive DfVal where
  | na
  | s (v : String)
deriving DecidableEq, Repr

/-- A DataFrame as produced by `pd.read_csv` / `pd.DataFrame`:
column names plus rows of cells. -/
structure Df where
  headers : List String
  rows : List (List String)
deriving DecidableEq, Repr

/-- One record of `df.to_dict(orient="records")`: column name to cell. -/
abbrev RecordRow := List (String × String)

/-- A table as emitted by the pipeline: `df.to_dict(orient="records")`. -/
abbrev Table := List RecordRow

/-- `df.to_dict(orient="records")` for a string-celled DataFrame. -/
def dfRecords (df : Df) : Table :=
  df.rows.map (fun r => df.headers.zip r)

/-- Simple deterministic stand-in for `pandas.DataFrame.to_string`;
no claim inspects this text. -/
def dfToString (df : Df) : String :=
  String.intercalate "|" df.headers ++ "\n" ++
    String.intercalate "\n" (df.rows.map (String.intercalate "|"))

/-- The `ExtractionResult` dict shape `{"text": ..., "tables": ...,
"metadata": {...}}`; metadata entries are kept as string pairs. -/
structure ExtractionResult where
  text : String
  tables : List Table
  metadata : List (String × String)
deriving DecidableEq, Repr

/-! ## Python string primitives

Python's `str.strip`/`str.lower` and slicing are modelled directly on the
character list of the string (kernel-reducible, unlike the byte-position
based `String` library routines). -/

/-- `\\s` of Python `re` (ASCII part) and the whitespace `str.strip`
removes. -/
def isPyWs (c : Char) : Bool :=
  [' ', '\t', '\n', '\r', '\x0b', '\x0c'].contains c

/-- Python `str.strip()`. -/
def pyStrip (s : String) : String :=
  String.mk (((s.data.dropWhile isPyWs).reverse.dropWhile isPyWs).reverse)

/-- Python `str.lower()`. -/
def pyLower (s : String) : String :=
  String.mk (s.data.map Char.toLower)

/-- Python `str.startswith`. -/
def strStartsWith (s p : String) : Bool :=
  p.data.isPrefixOf s.data

/-- Python `str.endswith`. -/
def strEndsWith (s p : String) : Bool :=
  p.data.reverse.isPrefixOf s.data.reverse

/-- Python slicing `s[n:]`. -/
def strDrop (s : String) (n : Nat) : String :=
  String.mk (s.data.drop n)

/-- Python slicing `s[:-n]`. -/
def strDropRight (s : String) (n : Nat) : String :=
  String.mk (s.data.take (s.data.length - n))

/-! ## File type detection (`get_file_type`) -/

def csvExts : List String := [".csv", ".txt", ".tsv"]

def imageExts : List String := [".jpg", ".jpeg", ".png", ".bmp", ".tiff"]

/-- The bytes `b'%PDF'`. -/
def pdfMagic : List Nat := [37, 80, 68, 70]

/-- `get_file_type` (src/ai_pipeline.py:21-41).  The path is modelled by
its `Path.suffix` and by `header`, the result of `open(...).read(4)`:
`some bytes` (at most 4, fewer when the file is shorter) on a successful
read, `none` when opening/reading raises (the bare `except: pass`).
`header.startswith(b'%PDF')` is `header.take 4 = pdfMagic`. -/
def get_file_type (suffix : String) (header : Option (List Nat)) : String :=
  let extension := pyLower suffix
  if extension = ".pdf" then "pdf"
  else if csvExts.contains extension then "csv"
  else if imageExts.contains extension then "image"
  else
    match header with
    | some h => if h.take 4 = pdfMagic then "pdf" else "unknown"
    | none => "unknown"

/-! ## CSV processing (`process_csv_file`) -/

/-- `process_csv_file` (src/ai_pipeline.py:60-86).  `parse` is the outcome
of `pd.read_csv` and `write` the outcome of `df.to_csv` (the normalized
copy written into the tables directory); either raising lands in the
`except` branch.  On success the single emitted table is
`df.to_dict(orient="records")`. -/
def process_csv_file (basename : String) (parse : Except String Df)
    (write : Except String Unit) : ExtractionResult :=
  match parse with
  | Except.error e =>
      { text := "Error processing CSV: " ++ e
        tables := []
        metadata := [("source_file", basename), ("error", e)] }
  | Except.ok df =>
      match write with
      | Except.error e =>
          { text := "Error processing CSV: " ++ e
            tables := []
            metadata := [("source_file", basename), ("error", e)] }
      | Except.ok _ =>
          { text := "CSV file processed: " ++ basename ++ "\n" ++ dfToString df
            tables := [dfRecords df]
            metadata := [("source_file", basename), ("type", "csv"),
              ("shape", "(" ++ toString df.rows.length ++ ", " ++
                toString df.headers.length ++ ")")] }

/-! ## PDF table cleaning (`extract_text_with_pdfplumber`, table loop)

pdfplumber returns each detected grid as a list of rows whose cells are
`str` or `None`; grids are rectangular. -/

/-- `str(cell).strip() if cell else ""` — `None` and the empty string are
falsy. -/
def cleanCell : Option String → String
  | none => ""
  | some v => if v = "" then "" else pyStrip v

/-- A cleaned DataFrame: headers plus rows of `DfVal` cells (all cells the
code builds are strings, never NaN). -/
structure DfN where
  headers : List String
  cells : List (List DfVal)
deriving DecidableEq, Repr

def isNA : DfVal → Bool
  | DfVal.na => true
  | DfVal.s _ => false

/-- `df.dropna(axis=1, how="all")`: keep exactly the columns that have at
least one non-missing value. -/
def dropnaCols (df : DfN) : DfN :=
  let keep := (List.range df.headers.length).filter
    (fun j => df.cells.any (fun r => !isNA (r.getD j DfVal.na)))
  { headers := keep.filterMap (fun j => df.headers.get? j)
    cells := df.cells.map (fun r => keep.filterMap (fun j => r.get? j)) }

/-- `df.dropna(axis=0, how="all")`: keep rows with a non-missing value. -/
def dropnaRows (df : DfN) : DfN :=
  { df with cells := df.cells.filter (fun r => r.any (fun v => !isNA v)) }

def dfValString : DfVal → String
  | DfVal.na => ""
  | DfVal.s v => v

/-- The emitted table of the PDF path: headers and string rows (the CSV
file written to the tables directory and `to_dict(orient="records")` are
both views of this). -/
structure CleanTable where
  headers : List String
  rows : List (List String)
deriving DecidableEq, Repr

/-- The per-grid body of the table loop (src/ai_pipeline.py:118-148):
skip grids with `len(table) <= 1`; strip cells; drop fully-empty rows;
first surviving row is the header; build the DataFrame (a ragged grid
makes `pd.DataFrame` raise, caught and skipped — pdfplumber grids are
rectangular); `dropna` columns then rows; strip column names; emit only
when the frame is non-empty and has columns. -/
def cleanGrid (grid : List (List (Option String))) : Option CleanTable :=
  if grid.length ≤ 1 then none
  else
    let cleaned := (grid.map (fun r => r.map cleanCell)).filter
      (fun r => r.any (fun c => c ≠ ""))
    match cleaned with
    | [] => none
    | [_] => none
    | headers :: data =>
        if data.any (fun r => r.length ≠ headers.length) then none
        else
          let df0 : DfN :=
            { headers := headers, cells := data.map (fun r => r.map DfVal.s) }
          let df1 := dropnaCols df0
          let df2 := dropnaRows df1
          let headers' := df2.headers.map pyStrip
          let rows' := df2.cells.map (fun r => r.map dfValString)
          if rows' = [] then none
          else if headers' = [] then none
          else some { headers := headers', rows := rows' }

/-- `df.to_dict(orient="records")` of an emitted clean table. -/
def cleanTableRecords (t : CleanTable) : Table :=
  t.rows.map (fun r => t.headers.zip r)

/-- One page handed to the extractor: `page.extract_text()` (`None` when
absent) and the grids `page.extract_tables(...)` detected on it.  Embedded
image extraction (src/ai_pipeline.py:154-168) only writes files and is
failure-isolated; it does not influence the returned result. -/
structure PdfPage where
  text : Option String
  grids : List (List (List (Option String)))
deriving Repr

/-- `"\n\nPage {n}\n{'=' * 40}\n{text}"`. -/
def pageBlock (n : Nat) (t : String) : String :=
  "\n\nPage " ++ toString n ++ "\n" ++ String.mk (List.replicate 40 '=') ++
    "\n" ++ t

/-- `extract_text_with_pdfplumber` (src/ai_pipeline.py:89-192).  `pdf` is
the outcome of `pdfplumber.open` and page iteration: `Except.error` when
opening the PDF raises, otherwise the page list. -/
def extract_text_with_pdfplumber (basename : String)
    (pdf : Except String (List PdfPage)) : ExtractionResult :=
  match pdf with
  | Except.error e =>
      { text := "Error: Could not extract text from PDF: " ++ e
        tables := []
        metadata := [("source_pdf", basename), ("error", e)] }
  | Except.ok pages =>
      let all_text := pages.enum.filterMap (fun p =>
        match p.2.text with
        | some t => if t = "" then none else some (pageBlock (p.1 + 1) t)
        | none => none)
      let all_tables := pages.foldl (fun acc p =>
        acc ++ p.grids.filterMap (fun g => (cleanGrid g).map cleanTableRecords)) []
      { text := String.intercalate "\n\n" all_text
        tables := all_tables
        metadata := [("source_pdf", basename), ("method", "pdfplumber"),
          ("pages_processed", toString all_text.length),
          ("tables_extracted", toString all_tables.length)] }

/-! ## JSON values and parsing (`json.loads`)

Model of Python's `json.loads` on the JSON subset the pipeline exchanges:
objects, arrays, double-quoted strings with single-character escapes
(`\uXXXX` escapes are out of the modelled subset), numbers (kept as their
lexeme — no claim computes with numeric values), `true`/`false`/`null`.
Like `json.loads`, the parser rejects trailing commas and trailing
garbage. -/

inductive Json where
  | null
  | bool (b : Bool)
  | num (lexeme : String)
  | str (s : String)
  | arr (xs : List Json)
  | obj (fields : List (String × Json))

/-- JSON inter-token whitespace (RFC 8259 / `json.loads`). -/
def isJsonSep (c : Char) : Bool :=
  [' ', '\t', '\n', '\r'].contains c

def skipWs (l : List Char) : List Char :=
  l.dropWhile isJsonSep

def escChar (c : Char) : Option Char :=
  if c = '"' ∨ c = '\\' ∨ c = '/' then some c
  else if c = 'n' then some '\n'
  else if c = 't' then some '\t'
  else if c = 'r' then some '\r'
  else if c = 'b' then some '\x08'
  else if c = 'f' then some '\x0c'
  else none

/-- Body of a JSON string after the opening quote. -/
def parseStringBody : List Char → Option (List Char × List Char)
  | [] => none
  | '"' :: rest => some ([], rest)
  | '\\' :: c :: rest =>
      match escChar c with
      | none => none
      | some e =>
          match parseStringBody rest with
          | none => none
          | some (s, r) => some (e :: s, r)
  | c :: rest =>
      match parseStringBody rest with
      | none => none
      | some (s, r) => some (c :: s, r)

def isDigitChar (c : Char) : Bool := '0' ≤ c ∧ c ≤ '9'

/-- JSON number lexeme: `-?int(.frac)?((e|E)(+|-)?digits)?`, with the
no-leading-zero rule of `json.loads`. -/
def parseNum (l : List Char) : Option (Json × List Char) :=
  let (sign, l1) := match l with
    | '-' :: r => (['-'], r)
    | _ => (([] : List Char), l)
  let ds := l1.takeWhile isDigitChar
  let r1 := l1.dropWhile isDigitChar
  if ds = [] then none
  else if 1 < ds.length ∧ ds.take 1 = ['0'] then none
  else
    let fracStep : Option (List Char × List Char) := match r1 with
      | '.' :: r =>
          let fs := r.takeWhile isDigitChar
          if fs = [] then none else some ('.' :: fs, r.dropWhile isDigitChar)
      | _ => some ([], r1)
    match fracStep with
    | none => none
    | some (frac, r2) =>
        let expStep : Option (List Char × List Char) := match r2 with
          | 'e' :: r => some (['e'], r)
          | 'E' :: r => some (['E'], r)
          | _ => some ([], r2)
        match expStep with
        | none => none
        | some (emark, r3) =>
            if emark = [] then
              some (Json.num (String.mk (sign ++ ds ++ frac)), r2)
            else
              let (esign, r4) := match r3 with
                | '+' :: r => (['+'], r)
                | '-' :: r => (['-'], r)
                | _ => (([] : List Char), r3)
              let es := r4.takeWhile isDigitChar
              if es = [] then none
              else some (Json.num (String.mk
                (sign ++ ds ++ frac ++ emark ++ esign ++ es)),
                r4.dropWhile isDigitChar)

mutual

def parseVal : Nat → List Char → Option (Json × List Char)
  | 0, _ => none
  | Nat.succ fuel, l =>
    match skipWs l with
    | [] => none
    | '"' :: rest =>
        match parseStringBody rest with
        | some (s, r) => some (Json.str (String.mk s), r)
        | none => none
    | '\x7b' :: rest => parseObjBody fuel rest
    | '[' :: rest => parseArrBody fuel rest
    | 't' :: rest =>
        if rest.take 3 = ['r', 'u', 'e'] then some (Json.bool true, rest.drop 3)
        else none
    | 'f' :: rest =>
        if rest.take 4 = ['a', 'l', 's', 'e'] then
          some (Json.bool false, rest.drop 4)
        else none
    | 'n' :: rest =>
        if rest.take 3 = ['u', 'l', 'l'] then some (Json.null, rest.drop 3)
        else none
    | l' => parseNum l'

def parseObjBody : Nat → List Char → Option (Json × List Char)
  | 0, _ => none
  | Nat.succ fuel, l =>
    match skipWs l with
    | '\x7d' :: rest => some (Json.obj [], rest)
    | l' => parseMembers fuel l' []

def parseMembers : Nat → List Char → List (String × Json) →
    Option (Json × List Char)
  | 0, _, _ => none
  | Nat.succ fuel, l, acc =>
    match skipWs l with
    | '"' :: rest =>
        match parseStringBody rest with
        | none => none
        | some (k, r1) =>
            match skipWs r1 with
            | ':' :: r2 =>
                match parseVal fuel r2 with
                | none => none
                | some (v, r3) =>
                    match skipWs r3 with
                    | ',' :: r4 => parseMembers fuel r4 (acc ++ [(String.mk k, v)])
                    | '\x7d' :: r4 => some (Json.obj (acc ++ [(String.mk k, v)]), r4)
                    | _ => none
            | _ => none
    | _ => none

def parseArrBody : Nat → List Char → Option (Json × List Char)
  | 0, _ => none
  | Nat.succ fuel, l =>
    match skipWs l with
    | ']' :: rest => some (Json.arr [], rest)
    | l' => parseElems fuel l' []

def parseElems : Nat → List Char → List Json → Option (Json × List Char)
  | 0, _, _ => none
  | Nat.succ fuel, l, acc =>
    match parseVal fuel l with
    | none => none
    | some (v, r) =>
        match skipWs r with
        | ',' :: r2 => parseElems fuel r2 (acc ++ [v])
        | ']' :: r2 => some (Json.arr (acc ++ [v]), r2)
        | _ => none

end

/-- `json.loads`: parse one value, then require only whitespace behind. -/
def parseJson (s : String) : Option Json :=
  match parseVal (4 * s.length + 8) s.data with
  | some (v, rest) => if skipWs rest = [] then some v else none
  | none => none

/-! ## Trailing-comma repair (`re.sub(r',(\s*[}\]])', r'\1', content)`)

`re.sub` scans left to right; at a match it emits the replacement (here:
the whitespace-plus-closer group, i.e. it deletes the comma) and resumes
after the matched region; otherwise it advances one position. -/

def isCloser (c : Char) : Bool := c = '\x7d' ∨ c = ']'

/-- The scan of `re.sub(r',(\s*[}\]])', r'\1', content)`: at each comma
followed by whitespace and a closer, the comma is deleted.  `re.sub`
resumes scanning after the matched region; since the matched
whitespace-and-closer region contains no comma (only commas start a
match), resuming at the start of that region — as this structurally
recursive scan does — produces the same output. -/
def repairAux : List Char → List Char
  | [] => []
  | x :: rest =>
      if x = ',' then
        match rest.dropWhile isPyWs with
        | c :: _ => if isCloser c then repairAux rest else ',' :: repairAux rest
        | [] => ',' :: repairAux rest
      else x :: repairAux rest

/-- Number of matches of the trailing-comma pattern found by the same
scan (matches never overlap: each starts at a distinct comma and consumes
only whitespace and one closer beyond it). -/
def countMatchesAux : List Char → Nat
  | [] => 0
  | x :: rest =>
      if x = ',' then
        match rest.dropWhile isPyWs with
        | c :: _ => if isCloser c then 1 + countMatchesAux rest
                    else countMatchesAux rest
        | [] => countMatchesAux rest
      else countMatchesAux rest

/-- The repair pass of src/ai_pipeline.py:362. -/
def repairTrailingCommas (s : String) : String :=
  String.mk (repairAux s.data)

def countTrailingCommaMatches (s : String) : Nat :=
  countMatchesAux s.data

/-! ## SOAP note generation (`generate_soap_note`) -/

/-- Code-fence cleanup of src/ai_pipeline.py:348-355: strip, drop a
leading ` ```json ` marker and a trailing ` ``` ` marker, strip again. -/
def stripCodeFence (raw : String) : String :=
  let content := pyStrip raw
  let content :=
    if strStartsWith content "```json" then strDrop content 7 else content
  let content :=
    if strEndsWith content "```" then strDropRight content 3 else content
  pyStrip content

/-- Python `str()` of the merged lab-data dict, modelled by a simple
deterministic printer; no claim inspects this text. -/
def labDataToString (lab_data : List (String × Table)) : String :=
  String.intercalate "; " (lab_data.map (fun p => p.1))

/-- The deterministic placeholder note of src/ai_pipeline.py:367-382. -/
def soapPlaceholder (lab_data : List (String × Table))
    (xray_description : String) (subj : String) (e : String) : Json :=
  Json.obj [
    ("Subjective", Json.str subj),
    ("Objective", Json.obj [
      ("Vital_Signs", Json.str "Not documented"),
      ("Physical_Examination", Json.str "Not documented"),
      ("Laboratory_Results", Json.str
        (if lab_data ≠ [] then labDataToString lab_data
         else "No lab results provided")),
      ("Imaging_Studies", Json.str
        (if xray_description ≠ "" then xray_description
         else "No imaging studies provided"))]),
    ("Assessment", Json.str
      ("Unable to generate assessment due to processing error: " ++ e)),
    ("Plan", Json.obj [
      ("Immediate", Json.str "Review all available data"),
      ("Follow_up", Json.str "Clinical correlation recommended"),
      ("Patient_Education", Json.str "Discuss findings with patient"),
      ("Additional_Studies", Json.str
        "Consider additional evaluation as clinically indicated")])]

/-- Stand-in for `str(je)` of the second `json.JSONDecodeError`; its exact
text is a library detail no claim inspects. -/
def jsonDecodeErrorMsg : String := "Expecting value"

/-- `generate_soap_note` (src/ai_pipeline.py:289-382).  `response` is the
outcome of the remote chat call: `Except.error` when the request raises,
`Except.ok raw` with the model text otherwise.  On a parse failure the
repair pass runs once and the parse is retried once; a second failure (or
a failed request) produces the placeholder note.  The prompt interpolation
(lines 294-338) only feeds the remote call and does not affect the
returned value. -/
def generate_soap_note (lab_data : List (String × Table))
    (xray_description : String) (subjective_note : Option String)
    (response : Except String String) : Json :=
  let subj := match subjective_note with
    | none => "Patient presents with chief complaint requiring clinical evaluation."
    | some s =>
        if s = "" then
          "Patient presents with chief complaint requiring clinical evaluation."
        else s
  match response with
  | Except.error e => soapPlaceholder lab_data xray_description subj e
  | Except.ok raw =>
      let content := stripCodeFence raw
      match parseJson content with
      | some v => v
      | none =>
          match parseJson (repairTrailingCommas content) with
          | some v => v
          | none =>
              soapPlaceholder lab_data xray_description subj jsonDecodeErrorMsg

/-! ## Json shape helpers -/

def jsonGetKey (j : Json) (k : String) : Option Json :=
  match j with
  | Json.obj fs => (fs.find? (fun p => p.1 = k)).map (fun p => p.2)
  | _ => none

def jsonHasKey (j : Json) (k : String) : Bool :=
  (jsonGetKey j k).isSome

/-- The documented SoapNote shape: the four top-level fields, with
`Objective` and `Plan` carrying their four sub-fields. -/
def soapShaped (j : Json) : Bool :=
  jsonHasKey j "Subjective" && jsonHasKey j "Assessment" &&
  (match jsonGetKey j "Objective" with
   | some o =>
       jsonHasKey o "Vital_Signs" && jsonHasKey o "Physical_Examination" &&
       jsonHasKey o "Laboratory_Results" && jsonHasKey o "Imaging_Studies"
   | none => false) &&
  (match jsonGetKey j "Plan" with
   | some p =>
       jsonHasKey p "Immediate" && jsonHasKey p "Follow_up" &&
       jsonHasKey p "Patient_Education" && jsonHasKey p "Additional_Studies"
   | none => false)

/-! ## X-ray description (`describe_xray_with_groq`) -/

/-- The metadata the local fallback reads: `PIL.Image.open` size/mode and
`os.path.getsize`; `sizeKB` is the `{size/1024:.1f}` rendering, kept as
text. -/
structure ImgMeta where
  width : Nat
  height : Nat
  mode : String
  sizeKB : String
deriving DecidableEq, Repr

/-- The local fallback description of src/ai_pipeline.py:276-283. -/
def fallbackDescription (basename : String) (m : ImgMeta) (e : String) : String :=
  "Image Analysis Fallback:\n- File: " ++ basename ++
  "\n- Dimensions: " ++ toString m.width ++ " x " ++ toString m.height ++
  " pixels\n- Color Mode: " ++ m.mode ++
  "\n- File Size: " ++ m.sizeKB ++ " KB\n- Error: " ++ e ++
  "\n\nNote: Unable to perform AI analysis due to technical error."

/-- `describe_xray_with_groq` (src/ai_pipeline.py:217-285).  Oracles:
`fileExists` is `os.path.exists`; `enc` is the result of `encode_image`
(which catches its own exceptions and returns `None` on failure); `req`
the remote vision call (`Except.error` when it raises); `meta` the result
of reading image metadata inside the fallback (`Except.error` when
`Image.open`/`getsize` raises there). -/
def describe_xray_with_groq (path basename : String) (fileExists : Bool)
    (enc : Option String) (req : Except String String)
    (meta : Except String ImgMeta) : String :=
  if !fileExists then "Error: Image file not found: " ++ path
  else
    match enc with
    | none => "Error: Could not encode image"
    | some _ =>
        match req with
        | Except.ok content => content
        | Except.error e =>
            match meta with
            | Except.ok m => fallbackDescription basename m e
            | Except.error ie => "Complete image analysis failure: " ++ ie

/-! ## Pipeline orchestration (`run_pipeline`) -/

/-- One lab-file argument of `run_pipeline` together with the oracle
values its processing consults: existence, `Path.suffix` and sniffed
header for `get_file_type`, and the CSV/PDF extraction outcomes (only the
one selected by the detected type is consulted). -/
structure LabInput where
  path : String
  basename : String
  fileExists : Bool
  suffix : String
  header : Option (List Nat)
  csvParse : Except String Df
  csvWrite : Except String Unit
  pdfPages : Except String (List PdfPage)

instance exceptDecEq {ε α : Type} [DecidableEq ε] [DecidableEq α] :
    DecidableEq (Except ε α) := fun x y =>
  match x, y with
  | Except.ok a, Except.ok b =>
      if h : a = b then isTrue (h ▸ rfl)
      else isFalse (fun hh => h (Except.ok.inj hh))
  | Except.error a, Except.error b =>
      if h : a = b then isTrue (h ▸ rfl)
      else isFalse (fun hh => h (Except.error.inj hh))
  | Except.ok _, Except.error _ => isFalse (fun hh => Except.noConfusion hh)
  | Except.error _, Except.ok _ => isFalse (fun hh => Except.noConfusion hh)

/-- One X-ray argument of `run_pipeline`: existence plus the outcome of
the `describe_xray_with_groq` call at src/ai_pipeline.py:452
(`Except.error` models that call raising, the case the surrounding
`try/except` at lines 451-466 anticipates). -/
structure XrayInput where
  path : String
  basename : String
  fileExists : Bool
  outcome : Except String String
deriving DecidableEq, Repr

/-- The entry appended to `xray_findings`. -/
structure ImageFinding where
  file : String
  description : String
  path : String
  errorField : Option String
deriving DecidableEq, Repr

/-- `extract_lab_data_from_pdf` (src/ai_pipeline.py:45-57): re-detect the
type; route CSVs to `process_csv_file`; other non-PDF types yield a bare
`{"error": ...}` dict (encoded with empty text/tables; this branch is
unreachable from `run_pipeline`, which only calls in when the detected
type is `pdf`). -/
def extract_lab_data_from_pdf (x : LabInput) : ExtractionResult :=
  let file_type := get_file_type x.suffix x.header
  if file_type ≠ "pdf" then
    if file_type = "csv" then process_csv_file x.basename x.csvParse x.csvWrite
    else
      { text := ""
        tables := []
        metadata := [("error", "Unsupported file type: " ++ file_type)] }
  else extract_text_with_pdfplumber x.basename x.pdfPages

/-- The lab-file loop of src/ai_pipeline.py:412-442: skip missing files,
detect the type, dispatch, append the result.  The `except` branch at
lines 436-442 is modelled nowhere because every dispatch target is total
(each catches its own exceptions). -/
def processLabFiles (labs : List LabInput) : List ExtractionResult :=
  labs.foldl (fun acc x =>
    if !x.fileExists then acc
    else
      let file_type := get_file_type x.suffix x.header
      let lab_result :=
        if file_type = "pdf" then extract_lab_data_from_pdf x
        else if file_type = "csv" then
          process_csv_file x.basename x.csvParse x.csvWrite
        else
          { text := "Unsupported file type: " ++ file_type
            tables := []
            metadata := [("error", "Unsupported file type: " ++ file_type)] }
      acc ++ [lab_result]) []

/-- The finding built from one existing X-ray input
(src/ai_pipeline.py:452-466). -/
def findingOf (x : XrayInput) : ImageFinding :=
  match x.outcome with
  | Except.ok d =>
      { file := x.basename, description := d, path := x.path, errorField := none }
  | Except.error e =>
      { file := x.basename
        description := "Error analyzing X-ray: " ++ e
        path := x.path
        errorField := some e }

/-- The X-ray loop of src/ai_pipeline.py:445-466: skip missing files,
append one finding per processed file. -/
def processXrays (xrays : List XrayInput) : List ImageFinding :=
  xrays.foldl (fun acc x =>
    if !x.fileExists then acc else acc ++ [findingOf x]) []

/-- Step 5, lab side (src/ai_pipeline.py:469-473): a Python dict built by
`all_lab_data[f"Table_{i+1}"] = table`, where `i` is `enumerate`'s index
over the single lab result's tables.  Python dict insertion replaces the
value of an existing key in place and appends new keys in order. -/
def dictUpsert (d : List (String × Table)) (k : String) (v : Table) :
    List (String × Table) :=
  if d.any (fun p => p.1 = k) then
    d.map (fun p => if p.1 = k then (k, v) else p)
  else d ++ [(k, v)]

def mergeLabData (lab_analysis : List ExtractionResult) :
    List (String × Table) :=
  lab_analysis.foldl (fun acc lab =>
    if lab.tables ≠ [] then
      (lab.tables.enum).foldl
        (fun acc2 it => dictUpsert acc2 ("Table_" ++ toString (it.1 + 1)) it.2)
        acc
    else acc) []

/-- Step 5, imaging side (src/ai_pipeline.py:475-478). -/
def xrayText (findings : List ImageFinding) : String :=
  String.intercalate "\n\n"
    (findings.map (fun x => "=== " ++ x.file ++ " ===\n" ++ x.description))

/-- The optional supplementary text file: basename, existence, and the
outcome of reading it (a raising read is logged and ignored). -/
structure TextFileInput where
  basename : String
  fileExists : Bool
  readRes : Except String String

/-- Arguments and oracle values of one `run_pipeline` invocation.
`soapResponse` is the remote outcome consumed by `generate_soap_note`;
`synthRaises = some e` models the `generate_soap_note` call itself raising
(the case the `try/except` at src/ai_pipeline.py:482-491 anticipates). -/
structure PipelineArgs where
  text_input : Option String
  text_file : Option TextFileInput
  lab_files : List LabInput
  xray_files : List XrayInput
  soapResponse : Except String String
  synthRaises : Option String

/-- The dict returned by `run_pipeline` (src/ai_pipeline.py:494-506). -/
structure PipelineResult where
  lab_files_count : Nat
  xray_files_count : Nat
  text_files_count : Nat
  lab_analysis : List ExtractionResult
  xray_findings : List ImageFinding
  soap_note : Json

/-- `run_pipeline` (src/ai_pipeline.py:386-513). -/
def run_pipeline (args : PipelineArgs) : PipelineResult :=
  let combined_text := (args.text_input.getD "") ++
    (match args.text_file with
     | some tf =>
         if tf.fileExists then
           match tf.readRes with
           | Except.ok c =>
               "\n\n--- Content from " ++ tf.basename ++ " ---\n" ++ c
           | Except.error _ => ""
         else ""
     | none => "")
  let lab_analysis := processLabFiles args.lab_files
  let xray_findings := processXrays args.xray_files
  let all_lab_data := mergeLabData lab_analysis
  let xray_text := xrayText xray_findings
  let soap_note := match args.synthRaises with
    | some e => Json.obj [("error", Json.str ("SOAP generation failed: " ++ e))]
    | none =>
        generate_soap_note all_lab_data xray_text
          (if pyStrip combined_text = "" then none
           else some (pyStrip combined_text))
          args.soapResponse
  { lab_files_count := args.lab_files.length
    xray_files_count := args.xray_files.length
    text_files_count := if args.text_file.isSome then 1 else 0
    lab_analysis := lab_analysis
    xray_findings := xray_findings
    soap_note := soap_note }

/-! ## Helper lemmas -/

theorem ws_ne_comma {c : Char} (h : isPyWs c = true) : c ≠ ',' := by
  intro he
  subst he
  exact absurd h (by decide)

theorem closer_ne_comma {c : Char} (h : isCloser c = true) : c ≠ ',' := by
  intro he
  subst he
  exact absurd h (by decide)

theorem closer_not_ws {c : Char} (h : isCloser c = true) : isPyWs c = false := by
  have h' : c = '\x7d' ∨ c = ']' := by simpa [isCloser] using h
  rcases h' with h1 | h1 <;> subst h1 <;> decide

theorem dropWhile_ws_append (w : List Char)
    (hw : ∀ x ∈ w, isPyWs x = true) (X : List Char) :
    (w ++ X).dropWhile isPyWs = X.dropWhile isPyWs := by
  induction w with
  | nil => simp
  | cons x w' ih =>
      have hx : isPyWs x = true := hw x (by simp)
      simp only [List.cons_append, List.dropWhile_cons_of_pos hx]
      exact ih (fun y hy => hw y (by simp [hy]))

theorem repairAux_ws_append (w : List Char)
    (hw : ∀ x ∈ w, isPyWs x = true) (X : List Char) :
    repairAux (w ++ X) = w ++ repairAux X := by
  induction w with
  | nil => simp
  | cons x w' ih =>
      have hx : x ≠ ',' := ws_ne_comma (hw x (by simp))
      simp only [List.cons_append, repairAux, if_neg hx, List.append_eq]
      rw [ih (fun y hy => hw y (by simp [hy]))]

theorem countMatchesAux_ws_append (w : List Char)
    (hw : ∀ x ∈ w, isPyWs x = true) (X : List Char) :
    countMatchesAux (w ++ X) = countMatchesAux X := by
  induction w with
  | nil => simp
  | cons x w' ih =>
      have hx : x ≠ ',' := ws_ne_comma (hw x (by simp))
      simp only [List.cons_append, countMatchesAux, if_neg hx, List.append_eq]
      exact ih (fun y hy => hw y (by simp [hy]))

theorem repairAux_cons_of_ne {x : Char} (hx : x ≠ ',') (rest : List Char) :
    repairAux (x :: rest) = x :: repairAux rest := by
  simp [repairAux, hx]

theorem countMatchesAux_cons_of_ne {x : Char} (hx : x ≠ ',') (rest : List Char) :
    countMatchesAux (x :: rest) = countMatchesAux rest := by
  simp [countMatchesAux, hx]

theorem repairAux_eq_self_of_count_zero :
    ∀ t : List Char, countMatchesAux t = 0 → repairAux t = t := by
  intro t
  induction t with
  | nil => intro _; rfl
  | cons x rest ih =>
      intro h
      by_cases hx : x = ','
      · subst hx
        cases hd : rest.dropWhile isPyWs with
        | nil =>
            have h' : countMatchesAux rest = 0 := by
              simpa [countMatchesAux, hd] using h
            simp [repairAux, hd, ih h']
        | cons c tl =>
            by_cases hc : isCloser c
            · exfalso
              simp only [countMatchesAux, hd, hc, if_pos, if_true] at h
              omega
            · have h' : countMatchesAux rest = 0 := by
                simpa [countMatchesAux, hd, hc] using h
              simp [repairAux, hd, hc, ih h']
      · have h' : countMatchesAux rest = 0 := by
          simpa [countMatchesAux, hx] using h
        simp [repairAux, hx, ih h']

theorem one_le_count_of_occurrence :
    ∀ (a : List Char) (w b : List Char) (c : Char),
    (∀ x ∈ w, isPyWs x = true) → isCloser c = true →
    1 ≤ countMatchesAux (a ++ ',' :: (w ++ c :: b)) := by
  intro a
  induction a with
  | nil =>
      intro w b c hw hc
      have hd : (w ++ c :: b).dropWhile isPyWs = c :: b := by
        rw [dropWhile_ws_append w hw, List.dropWhile_cons_of_neg]
        simp [closer_not_ws hc]
      have heq : countMatchesAux (',' :: (w ++ c :: b)) =
          1 + countMatchesAux (w ++ c :: b) := by
        simp [countMatchesAux, hd, hc]
      simp only [List.nil_append]
      omega
  | cons x a' ih =>
      intro w b c hw hc
      by_cases hx : x = ','
      · subst hx
        cases hd : (a' ++ ',' :: (w ++ c :: b)).dropWhile isPyWs with
        | nil =>
            exfalso
            have hall := List.dropWhile_eq_nil_iff.mp hd
            have : isPyWs ',' = true := hall ',' (by simp)
            exact absurd this (by decide)
        | cons c0 tl =>
            by_cases hc0 : isCloser c0
            · have heq : countMatchesAux (',' :: (a' ++ ',' :: (w ++ c :: b))) =
                  1 + countMatchesAux (a' ++ ',' :: (w ++ c :: b)) := by
                simp [countMatchesAux, hd, hc0]
              simp only [List.cons_append]
              omega
            · have heq : countMatchesAux (',' :: (a' ++ ',' :: (w ++ c :: b))) =
                  countMatchesAux (a' ++ ',' :: (w ++ c :: b)) := by
                simp [countMatchesAux, hd, hc0]
              have := ih w b c hw hc
              simp only [List.cons_append]
              omega
      · have heq := countMatchesAux_cons_of_ne hx (a' ++ ',' :: (w ++ c :: b))
        have := ih w b c hw hc
        simp only [List.cons_append]
        omega

theorem repairAux_removes_unique_comma :
    ∀ (a : List Char) (w b : List Char) (c : Char),
    (∀ x ∈ w, isPyWs x = true) → isCloser c = true →
    countMatchesAux (a ++ ',' :: (w ++ c :: b)) = 1 →
    repairAux (a ++ ',' :: (w ++ c :: b)) = a ++ (w ++ c :: b) := by
  intro a
  induction a with
  | nil =>
      intro w b c hw hc h1
      simp only [List.nil_append] at h1 ⊢
      have hd : (w ++ c :: b).dropWhile isPyWs = c :: b := by
        rw [dropWhile_ws_append w hw, List.dropWhile_cons_of_neg]
        simp [closer_not_ws hc]
      have heq : countMatchesAux (',' :: (w ++ c :: b)) =
          1 + countMatchesAux (w ++ c :: b) := by
        simp [countMatchesAux, hd, hc]
      have hwcb : countMatchesAux (w ++ c :: b) = 0 := by omega
      have hcb : countMatchesAux (c :: b) = countMatchesAux b :=
        countMatchesAux_cons_of_ne (closer_ne_comma hc) b
      have hwX := countMatchesAux_ws_append w hw (c :: b)
      have hb : countMatchesAux b = 0 := by omega
      calc repairAux (',' :: (w ++ c :: b))
          = repairAux (w ++ c :: b) := by simp [repairAux, hd, hc]
        _ = w ++ repairAux (c :: b) := repairAux_ws_append w hw _
        _ = w ++ (c :: repairAux b) := by
              rw [repairAux_cons_of_ne (closer_ne_comma hc)]
        _ = w ++ c :: b := by rw [repairAux_eq_self_of_count_zero b hb]
  | cons x a' ih =>
      intro w b c hw hc h1
      simp only [List.cons_append] at h1 ⊢
      by_cases hx : x = ','
      · subst hx
        cases hd : (a' ++ ',' :: (w ++ c :: b)).dropWhile isPyWs with
        | nil =>
            exfalso
            have hall := List.dropWhile_eq_nil_iff.mp hd
            have : isPyWs ',' = true := hall ',' (by simp)
            exact absurd this (by decide)
        | cons c0 tl =>
            by_cases hc0 : isCloser c0
            · exfalso
              have heq : countMatchesAux (',' :: (a' ++ ',' :: (w ++ c :: b))) =
                  1 + countMatchesAux (a' ++ ',' :: (w ++ c :: b)) := by
                simp [countMatchesAux, hd, hc0]
              have hge := one_le_count_of_occurrence a' w b c hw hc
              omega
            · have heq : countMatchesAux (',' :: (a' ++ ',' :: (w ++ c :: b))) =
                  countMatchesAux (a' ++ ',' :: (w ++ c :: b)) := by
                simp [countMatchesAux, hd, hc0]
              have hr : repairAux (',' :: (a' ++ ',' :: (w ++ c :: b))) =
                  ',' :: repairAux (a' ++ ',' :: (w ++ c :: b)) := by
                simp [repairAux, hd, hc0]
              rw [hr, ih w b c hw hc (by omega)]
      · rw [repairAux_cons_of_ne hx, ih w b c hw hc
          (by rw [← countMatchesAux_cons_of_ne hx]; exact h1)]

/-! ## Claim theorems -/

/-- C1: the claim says the merged lab-data mapping names tables
`Table_1`, `Table_2`, ... monotonically across all lab-file results, no
table shadowing another.  In the code the `enumerate` index restarts at
every lab result, so with two lab results of one table each both tables
get the key `Table_1` and the second result's table replaces the first's:
the merged mapping has a single entry holding only the second table. -/
theorem c1_merge_overwrite :
    mergeLabData
      [{ text := "CSV file processed: a.csv", tables := [[[("A", "1")]]],
         metadata := [] },
       { text := "CSV file processed: b.csv", tables := [[[("B", "2")]]],
         metadata := [] }] =
      [("Table_1", [[("B", "2")]])] := by decide

/-- C4: the claim says a detected grid containing one fully-empty row and
one fully-empty column never yields an emitted Table still containing
them.  The fully-empty row is indeed dropped, but the fully-empty column
(header and every cell the empty string) survives: the code's
`df.dropna(axis=1, how="all")` removes only NaN columns and every cleaned
cell is a string.  On the grid
`[["A","","B"], ["", None, ""], ["1","","2"]]` the emitted table still
has the all-empty middle column. -/
theorem c4_empty_column_retained :
    cleanGrid [[some "A", some "", some "B"],
               [some "", none, some ""],
               [some "1", some "", some "2"]] =
      some { headers := ["A", "", "B"], rows := [["1", "", "2"]] } ∧
    (([["1", "", "2"]] : List (List String)).all
      (fun r => r.getD 1 "x" = "")) = true ∧
    (["A", "", "B"] : List String).getD 1 "x" = "" := by decide

/-- C10: in `process_csv_file` a successful parse followed by a failing
write of the normalized copy produces the error-shaped result with empty
tables and an error-describing text — the parsed rows are discarded —
while success of both steps is what emits the parsed rows. -/
theorem c10_csv_write_failure (basename : String) (df : Df) (e : String) :
    process_csv_file basename (Except.ok df) (Except.error e) =
      { text := "Error processing CSV: " ++ e
        tables := []
        metadata := [("source_file", basename), ("error", e)] } ∧
    (process_csv_file basename (Except.ok df) (Except.ok ())).tables =
      [dfRecords df] :=
  ⟨rfl, rfl⟩

/-- C5 counterexample: the claim says every emitted Table has at least one
data row, in the CSV path as well.  A CSV that parses to a header-only
DataFrame (zero data rows) makes `process_csv_file` emit the empty table
`[]`, which also lands in the merged lab-data mapping as `Table_1`. -/
theorem c5_counterexample :
    (process_csv_file "lab.csv" (Except.ok { headers := ["A"], rows := [] })
        (Except.ok ())).tables = [([] : Table)] ∧
    mergeLabData [process_csv_file "lab.csv"
        (Except.ok { headers := ["A"], rows := [] }) (Except.ok ())] =
      [("Table_1", ([] : Table))] := by decide

theorem str_append_ne_empty_right (s t : String) (ht : t ≠ "") :
    s ++ t ≠ "" := by
  intro h
  apply ht
  have hd := congrArg String.data h
  rw [String.data_append] at hd
  exact String.ext (List.append_eq_nil.mp hd).2

theorem fallback_nonempty (b : String) (m : ImgMeta) (e : String) :
    fallbackDescription b m e ≠ "" :=
  str_append_ne_empty_right _ _ (by decide)

/-- C6: `get_file_type` classifies by extension first (`.pdf` to pdf;
`.csv`/`.txt`/`.tsv` to csv; `.jpg`/`.jpeg`/`.png`/`.bmp`/`.tiff` to
image); for any other extension it answers `pdf` exactly when the sniffed
first (at most) 4 bytes equal `%PDF`, and `unknown` otherwise — also when
the sniffing read raises (`header = none`).  Totality of the embedding
mirrors that the function never throws. -/
theorem c6_get_file_type :
    (∀ h, get_file_type ".pdf" h = "pdf") ∧
    (∀ h, get_file_type ".csv" h = "csv") ∧
    (∀ h, get_file_type ".txt" h = "csv") ∧
    (∀ h, get_file_type ".tsv" h = "csv") ∧
    (∀ h, get_file_type ".jpg" h = "image") ∧
    (∀ h, get_file_type ".jpeg" h = "image") ∧
    (∀ h, get_file_type ".png" h = "image") ∧
    (∀ h, get_file_type ".bmp" h = "image") ∧
    (∀ h, get_file_type ".tiff" h = "image") ∧
    (∀ suffix : String, pyLower suffix ≠ ".pdf" →
      csvExts.contains (pyLower suffix) = false →
      imageExts.contains (pyLower suffix) = false →
      (∀ bytes : List Nat, bytes.length ≤ 4 →
        ((get_file_type suffix (some bytes) = "pdf" ↔ bytes = pdfMagic) ∧
         (bytes ≠ pdfMagic → get_file_type suffix (some bytes) = "unknown"))) ∧
      get_file_type suffix none = "unknown") := by
  refine ⟨fun _ => rfl, fun _ => rfl, fun _ => rfl, fun _ => rfl, fun _ => rfl,
    fun _ => rfl, fun _ => rfl, fun _ => rfl, fun _ => rfl, ?_⟩
  intro suffix h1 h2 h3
  have h2' : pyLower suffix ∉ csvExts := by simpa using h2
  have h3' : pyLower suffix ∉ imageExts := by simpa using h3
  constructor
  · intro bytes hlen
    have hred : get_file_type suffix (some bytes) =
        if bytes.take 4 = pdfMagic then "pdf" else "unknown" := by
      simp [get_file_type, h1, h2', h3']
    rw [List.take_of_length_le hlen] at hred
    constructor
    · rw [hred]
      by_cases hb : bytes = pdfMagic
      · simp [hb]
      · simp [hb]
    · intro hb
      rw [hred, if_neg hb]
  · simp [get_file_type, h1, h2', h3']

theorem c6_get_file_type_witness :
    get_file_type ".pdf" none = "pdf" ∧
    get_file_type ".csv" none = "csv" ∧
    get_file_type ".xyz" (some pdfMagic) = "pdf" ∧
    get_file_type ".xyz" (some [37, 80]) = "unknown" ∧
    get_file_type ".xyz" none = "unknown" :=
  ⟨c6_get_file_type.1 none,
   c6_get_file_type.2.1 none,
   ((c6_get_file_type.2.2.2.2.2.2.2.2.2 ".xyz" (by decide) (by decide)
      (by decide)).1 pdfMagic (by decide)).1.mpr rfl,
   ((c6_get_file_type.2.2.2.2.2.2.2.2.2 ".xyz" (by decide) (by decide)
      (by decide)).1 [37, 80] (by decide)).2 (by decide),
   (c6_get_file_type.2.2.2.2.2.2.2.2.2 ".xyz" (by decide) (by decide)
      (by decide)).2⟩

/-- C8 counterexample: the claim says any encoding failure yields a
deterministic fallback built from image metadata plus the error message.
When `encode_image` fails (returns `None`) on an existing file, the code
instead returns the fixed string `"Error: Could not encode image"`, which
carries no image metadata — the metadata fallback (which always starts
with `"Image Analysis Fallback:"`) is only built when the remote request
raises. -/
theorem c8_counterexample :
    describe_xray_with_groq "temp/xray.png" "xray.png" true none
      (Except.ok "model output")
      (Except.ok { width := 100, height := 200, mode := "L", sizeKB := "12.0" }) =
      "Error: Could not encode image" ∧
    strStartsWith "Error: Could not encode image" "Image Analysis Fallback:" =
      false ∧
    strStartsWith
      (fallbackDescription "xray.png"
        { width := 100, height := 200, mode := "L", sizeKB := "12.0" } "err")
      "Image Analysis Fallback:" = true := by
  refine ⟨rfl, by decide, by decide⟩

/-- C8 amended: `describe_xray_with_groq` never raises (the embedding is
total, as every exception is caught); a nonexistent path yields the
not-found error string; an encoding failure yields the fixed string
`"Error: Could not encode image"` (not a metadata-based text); a request
failure yields the metadata fallback including the error message — a
non-empty text — when the metadata is readable, and the
`"Complete image analysis failure: ..."` message when reading the
metadata raises too. -/
theorem c8_amended (path basename : String) (fileExists : Bool)
    (enc : Option String) (req : Except String String)
    (meta : Except String ImgMeta) :
    (fileExists = false →
      describe_xray_with_groq path basename fileExists enc req meta =
        "Error: Image file not found: " ++ path) ∧
    (fileExists = true → enc = none →
      describe_xray_with_groq path basename fileExists enc req meta =
        "Error: Could not encode image") ∧
    (∀ s e m, fileExists = true → enc = some s → req = Except.error e →
      meta = Except.ok m →
      describe_xray_with_groq path basename fileExists enc req meta =
        fallbackDescription basename m e ∧
      describe_xray_with_groq path basename fileExists enc req meta ≠ "") ∧
    (∀ s e ie, fileExists = true → enc = some s → req = Except.error e →
      meta = Except.error ie →
      describe_xray_with_groq path basename fileExists enc req meta =
        "Complete image analysis failure: " ++ ie) ∧
    (∀ s c, fileExists = true → enc = some s → req = Except.ok c →
      describe_xray_with_groq path basename fileExists enc req meta = c) := by
  refine ⟨?_, ?_, ?_, ?_, ?_⟩
  · intro h
    subst h
    rfl
  · intro h he
    subst h
    subst he
    rfl
  · intro s e m h he hr hm
    subst h
    subst he
    subst hr
    subst hm
    exact ⟨rfl, fallback_nonempty basename m e⟩
  · intro s e ie h he hr hm
    subst h
    subst he
    subst hr
    subst hm
    rfl
  · intro s c h he hr
    subst h
    subst he
    subst hr
    rfl

theorem c8_amended_witness :
    describe_xray_with_groq "temp/missing.png" "missing.png" false none
      (Except.ok "r") (Except.error "io") =
      "Error: Image file not found: temp/missing.png" ∧
    describe_xray_with_groq "temp/x.png" "x.png" true (some "AAAA")
      (Except.error "request timed out")
      (Except.ok { width := 640, height := 480, mode := "RGB", sizeKB := "98.0" }) =
      fallbackDescription "x.png"
        { width := 640, height := 480, mode := "RGB", sizeKB := "98.0" }
        "request timed out" :=
  ⟨(c8_amended "temp/missing.png" "missing.png" false none (Except.ok "r")
      (Except.error "io")).1 rfl,
   ((c8_amended "temp/x.png" "x.png" true (some "AAAA")
      (Except.error "request timed out")
      (Except.ok { width := 640, height := 480, mode := "RGB", sizeKB := "98.0" })).2.2.1
      "AAAA" "request timed out"
      { width := 640, height := 480, mode := "RGB", sizeKB := "98.0" }
      rfl rfl rfl rfl).1⟩

/-- C3 counterexample: the claim says a step-6 failure still leaves a
SoapNote-shaped error record (Subjective/Objective/Assessment/Plan all
present) in the result.  The handler at src/ai_pipeline.py:490-491
instead stores the bare dict `{"error": "SOAP generation failed: ..."}`,
which has none of the four fields. -/
theorem c3_counterexample :
    (run_pipeline ⟨none, none, [], [], Except.ok "", some "boom"⟩).soap_note =
      Json.obj [("error", Json.str "SOAP generation failed: boom")] ∧
    jsonHasKey
      ((run_pipeline ⟨none, none, [], [], Except.ok "", some "boom"⟩).soap_note)
      "Subjective" = false ∧
    soapShaped
      ((run_pipeline ⟨none, none, [], [], Except.ok "", some "boom"⟩).soap_note) =
      false :=
  ⟨rfl, rfl, rfl⟩

/-- C3 amended: when the step-6 `generate_soap_note` call raises,
`run_pipeline` catches the exception (it does not re-raise; the embedding
stays total) and the returned result's `soap_note` is the bare error dict
`{"error": "SOAP generation failed: <msg>"}` — which is not
SoapNote-shaped: it contains neither `Subjective` nor the other three
documented fields. -/
theorem c3_amended (args : PipelineArgs) (e : String)
    (h : args.synthRaises = some e) :
    (run_pipeline args).soap_note =
      Json.obj [("error", Json.str ("SOAP generation failed: " ++ e))] ∧
    jsonHasKey (run_pipeline args).soap_note "Subjective" = false ∧
    soapShaped (run_pipeline args).soap_note = false := by
  have h1 : (run_pipeline args).soap_note =
      Json.obj [("error", Json.str ("SOAP generation failed: " ++ e))] := by
    simp [run_pipeline, h]
  refine ⟨h1, ?_, ?_⟩ <;> rw [h1] <;> rfl

theorem c3_amended_witness :
    (run_pipeline ⟨some "fever", none, [], [], Except.ok "", some "oom"⟩).soap_note =
      Json.obj [("error", Json.str "SOAP generation failed: oom")] ∧
    soapShaped
      ((run_pipeline ⟨some "fever", none, [], [], Except.ok "", some "oom"⟩).soap_note) =
      false :=
  ⟨(c3_amended _ "oom" rfl).1, (c3_amended _ "oom" rfl).2.2⟩

/-- C2 counterexample: the claim says `generate_soap_note` always returns
an object containing the four top-level fields regardless of how the
remote call turns out.  A remote response that parses as the valid JSON
object `{}` is returned verbatim with no shape validation, and it
contains none of the fields. -/
theorem c2_counterexample :
    generate_soap_note [] "" none (Except.ok "\x7b\x7d") = Json.obj [] ∧
    jsonHasKey (Json.obj []) "Subjective" = false ∧
    soapShaped (Json.obj []) = false :=
  ⟨rfl, rfl, rfl⟩

/-- C2 amended: `generate_soap_note` never propagates an exception (the
embedding is total: every failure path returns a value).  When the remote
call raises, or when the response fails to parse even after the single
trailing-comma repair pass, it returns the placeholder note, which always
carries Subjective, Objective, Assessment and Plan with their documented
sub-fields.  But when the response parses as JSON, the parsed value is
returned verbatim without shape validation and need not contain those
fields. -/
theorem c2_amended (lab_data : List (String × Table))
    (xray_description : String) (subjective_note : Option String) :
    (∀ e, soapShaped (generate_soap_note lab_data xray_description
        subjective_note (Except.error e)) = true) ∧
    (∀ raw, parseJson (stripCodeFence raw) = none →
      parseJson (repairTrailingCommas (stripCodeFence raw)) = none →
      soapShaped (generate_soap_note lab_data xray_description
        subjective_note (Except.ok raw)) = true) ∧
    (∀ raw v, parseJson (stripCodeFence raw) = some v →
      generate_soap_note lab_data xray_description subjective_note
        (Except.ok raw) = v) := by
  refine ⟨?_, ?_, ?_⟩
  · intro e
    rfl
  · intro raw h1 h2
    simp only [generate_soap_note, h1, h2]
    rfl
  · intro raw v h
    simp only [generate_soap_note, h]

theorem c2_amended_witness :
    soapShaped (generate_soap_note [] "" none
      (Except.error "network down")) = true ∧
    soapShaped (generate_soap_note [] "" none
      (Except.ok "the model returned prose")) = true ∧
    generate_soap_note [] "" none
        (Except.ok "\x7b\"Subjective\": \"s\"\x7d") =
      Json.obj [("Subjective", Json.str "s")] :=
  ⟨(c2_amended [] "" none).1 "network down",
   (c2_amended [] "" none).2.1 "the model returned prose" rfl rfl,
   (c2_amended [] "" none).2.2 "\x7b\"Subjective\": \"s\"\x7d"
     (Json.obj [("Subjective", Json.str "s")]) rfl⟩

theorem foldl_append_flatMap {α β : Type} (f : α → List β) :
    ∀ (l : List α) (acc : List β),
    l.foldl (fun a x => a ++ f x) acc = acc ++ l.flatMap f := by
  intro l
  induction l with
  | nil => intro acc; simp
  | cons x xs ih => intro acc; simp [ih]

theorem cleanGrid_rows_ne_nil (grid : List (List (Option String)))
    (t : CleanTable) (h : cleanGrid grid = some t) : t.rows ≠ [] := by
  simp only [cleanGrid] at h
  split at h
  · exact Option.noConfusion h
  · split at h
    · exact Option.noConfusion h
    · exact Option.noConfusion h
    · split at h
      · exact Option.noConfusion h
      · split at h
        · exact Option.noConfusion h
        · split at h
          · exact Option.noConfusion h
          · rename_i hrows _
            rw [Option.some_inj] at h
            subst h
            simpa using hrows

theorem pdf_tables_from_cleanGrid (basename : String) (pages : List PdfPage)
    (tb : Table)
    (h : tb ∈ (extract_text_with_pdfplumber basename (Except.ok pages)).tables) :
    ∃ p ∈ pages, ∃ g ∈ p.grids, ∃ ct,
      cleanGrid g = some ct ∧ tb = cleanTableRecords ct := by
  simp only [extract_text_with_pdfplumber] at h
  rw [foldl_append_flatMap (fun p => p.grids.filterMap
    (fun g => (cleanGrid g).map cleanTableRecords)) pages []] at h
  rw [List.nil_append] at h
  obtain ⟨p, hp, hin⟩ := List.mem_flatMap.mp h
  obtain ⟨g, hg, hmap⟩ := List.mem_filterMap.mp hin
  obtain ⟨ct, hct, rfl⟩ := Option.map_eq_some'.mp hmap
  exact ⟨p, hp, g, hg, ct, hct, rfl⟩

/-- C5 amended: every Table the PDF path emits has at least one data row
(the `not df.empty` guard), but the CSV path emits the parsed records as
its single Table unconditionally, so a header-only CSV (zero data rows)
puts an empty Table into the result. -/
theorem c5_amended :
    (∀ (basename : String) (pdf : Except String (List PdfPage)) (tb : Table),
      tb ∈ (extract_text_with_pdfplumber basename pdf).tables → tb ≠ []) ∧
    (∀ (basename : String) (df : Df),
      (process_csv_file basename (Except.ok df) (Except.ok ())).tables =
        [dfRecords df]) := by
  constructor
  · intro basename pdf tb htb
    cases pdf with
    | error e => simp [extract_text_with_pdfplumber] at htb
    | ok pages =>
        obtain ⟨p, _, g, _, ct, hct, rfl⟩ :=
          pdf_tables_from_cleanGrid basename pages tb htb
        have hrows := cleanGrid_rows_ne_nil g ct hct
        simp only [cleanTableRecords, ne_eq, List.map_eq_nil_iff]
        exact hrows
  · intro basename df
    rfl

theorem c5_amended_witness :
    ([[("Test", "12")]] : Table) ≠ [] ∧
    (process_csv_file "lab.csv" (Except.ok { headers := ["A"], rows := [] })
      (Except.ok ())).tables = [dfRecords { headers := ["A"], rows := [] }] :=
  ⟨c5_amended.1 "r.pdf"
      (Except.ok [{ text := some "page", grids := [[[some "Test"], [some "12"]]] }])
      [[("Test", "12")]] (by decide),
   c5_amended.2 "lab.csv" { headers := ["A"], rows := [] }⟩

theorem processXrays_go (xs : List XrayInput) :
    ∀ acc, xs.foldl
        (fun acc x => if !x.fileExists then acc else acc ++ [findingOf x]) acc =
      acc ++ (xs.filter (fun x => x.fileExists)).map findingOf := by
  induction xs with
  | nil => intro acc; simp
  | cons x xs ih =>
      intro acc
      rw [List.foldl_cons]
      by_cases hx : x.fileExists
      · have hstep : (if (!x.fileExists) = true then acc
            else acc ++ [findingOf x]) = acc ++ [findingOf x] := by simp [hx]
        rw [hstep, ih, List.filter_cons, if_pos hx]
        simp
      · have hstep : (if (!x.fileExists) = true then acc
            else acc ++ [findingOf x]) = acc := by simp [hx]
        rw [hstep, ih, List.filter_cons, if_neg hx]

theorem processXrays_eq (xs : List XrayInput) :
    processXrays xs = (xs.filter (fun x => x.fileExists)).map findingOf := by
  unfold processXrays
  rw [processXrays_go]
  simp

/-- C9: `run_pipeline` skips nonexistent X-ray paths entirely — the
findings list is exactly one entry per existing input, in order; an entry
carrying the error field arises only from an existing file whose
processing raised; and a single nonexistent path yields the empty
findings list. -/
theorem c9_xray_findings :
    (∀ args : PipelineArgs, (run_pipeline args).xray_findings =
      (args.xray_files.filter (fun x => x.fileExists)).map findingOf) ∧
    (∀ (xs : List XrayInput) (f : ImageFinding), f ∈ processXrays xs →
      f.errorField ≠ none →
      ∃ x, x ∈ xs ∧ x.fileExists = true ∧
        ∃ e, x.outcome = Except.error e ∧ f = findingOf x) ∧
    (∀ x : XrayInput, x.fileExists = false → processXrays [x] = []) := by
  refine ⟨?_, ?_, ?_⟩
  · intro args
    simp only [run_pipeline]
    exact processXrays_eq args.xray_files
  · intro xs f hf he
    rw [processXrays_eq] at hf
    obtain ⟨x, hx, rfl⟩ := List.mem_map.mp hf
    have hmem := List.mem_filter.mp hx
    cases ho : x.outcome with
    | ok d => exact absurd (by simp [findingOf, ho]) he
    | error e => exact ⟨x, hmem.1, hmem.2, e, ho, rfl⟩
  · intro x hx
    rw [processXrays_eq]
    simp [hx]

theorem c9_xray_findings_witness :
    (run_pipeline ⟨none, none, [],
      [⟨"temp/gone.jpg", "gone.jpg", false, Except.ok "d"⟩],
      Except.ok "", none⟩).xray_findings = [] ∧
    processXrays [⟨"temp/gone.jpg", "gone.jpg", false, Except.ok "d"⟩] = [] :=
  ⟨by rw [c9_xray_findings.1]; rfl,
   c9_xray_findings.2.2 ⟨"temp/gone.jpg", "gone.jpg", false, Except.ok "d"⟩ rfl⟩

/-- C7 counterexample: the claim asserts that for every response text
containing exactly one trailing comma before a closer the repair pass
produces text whose JSON parse succeeds.  The response `"x,}"` contains
exactly one such trailing comma, the first parse fails, the repair pass
yields `"x}"` — the same text with the comma removed — and its JSON parse
still fails, because the surrounding text was never valid JSON. -/
theorem c7_counterexample :
    countTrailingCommaMatches "x,\x7d" = 1 ∧
    parseJson "x,\x7d" = none ∧
    repairTrailingCommas "x,\x7d" = "x\x7d" ∧
    parseJson (repairTrailingCommas "x,\x7d") = none :=
  ⟨by decide, rfl, by decide, rfl⟩

/-- C7 amended: for every response text containing exactly one trailing
comma before a closing brace/bracket (one match of the repair pattern),
the repair pass produces exactly the same text with that comma removed;
consequently whenever the comma-removed text parses as JSON, the retried
parse succeeds with that very value.  In `generate_soap_note` the repair
pass runs exactly once after the first parse failure and its successful
reparse is returned directly. -/
theorem c7_amended :
    (∀ (a w b : List Char) (c : Char), (∀ x ∈ w, isPyWs x = true) →
      isCloser c = true →
      countTrailingCommaMatches (String.mk (a ++ ',' :: (w ++ c :: b))) = 1 →
      repairTrailingCommas (String.mk (a ++ ',' :: (w ++ c :: b))) =
        String.mk (a ++ (w ++ c :: b))) ∧
    (∀ (a w b : List Char) (c : Char) (v : Json), (∀ x ∈ w, isPyWs x = true) →
      isCloser c = true →
      countTrailingCommaMatches (String.mk (a ++ ',' :: (w ++ c :: b))) = 1 →
      parseJson (String.mk (a ++ (w ++ c :: b))) = some v →
      parseJson (repairTrailingCommas (String.mk (a ++ ',' :: (w ++ c :: b)))) =
        some v) ∧
    (∀ (lab_data : List (String × Table)) (xray_description : String)
      (subjective_note : Option String) (raw : String) (v : Json),
      parseJson (stripCodeFence raw) = none →
      parseJson (repairTrailingCommas (stripCodeFence raw)) = some v →
      generate_soap_note lab_data xray_description subjective_note
        (Except.ok raw) = v) := by
  have hcore : ∀ (a w b : List Char) (c : Char), (∀ x ∈ w, isPyWs x = true) →
      isCloser c = true →
      countTrailingCommaMatches (String.mk (a ++ ',' :: (w ++ c :: b))) = 1 →
      repairTrailingCommas (String.mk (a ++ ',' :: (w ++ c :: b))) =
        String.mk (a ++ (w ++ c :: b)) := by
    intro a w b c hw hc h1
    have h1' : countMatchesAux (a ++ ',' :: (w ++ c :: b)) = 1 := h1
    have := repairAux_removes_unique_comma a w b c hw hc h1'
    unfold repairTrailingCommas
    exact congrArg String.mk this
  refine ⟨hcore, ?_, ?_⟩
  · intro a w b c v hw hc h1 hp
    rw [hcore a w b c hw hc h1]
    exact hp
  · intro lab_data xray_description subjective_note raw v h1 h2
    simp only [generate_soap_note, h1, h2]

theorem c7_amended_witness :
    repairTrailingCommas
      (String.mk (("\x7b\"a\": 1").data ++ ',' ::
        (([] : List Char) ++ '\x7d' :: ([] : List Char)))) =
      String.mk (("\x7b\"a\": 1").data ++
        (([] : List Char) ++ '\x7d' :: ([] : List Char))) ∧
    parseJson (repairTrailingCommas
      (String.mk (("\x7b\"a\": 1").data ++ ',' ::
        (([] : List Char) ++ '\x7d' :: ([] : List Char))))) =
      some (Json.obj [("a", Json.num "1")]) ∧
    generate_soap_note [] "" none (Except.ok "\x7b\"a\": 1,\x7d") =
      Json.obj [("a", Json.num "1")] :=
  ⟨c7_amended.1 ("\x7b\"a\": 1").data [] [] '\x7d' (by simp) (by decide)
      (by decide),
   c7_amended.2.1 ("\x7b\"a\": 1").data [] [] '\x7d'
      (Json.obj [("a", Json.num "1")]) (by simp) (by decide) (by decide) rfl,
   c7_amended.2.2 [] "" none "\x7b\"a\": 1,\x7d"
      (Json.obj [("a", Json.num "1")]) rfl rfl⟩
